import Mathlib

/-!
Shallow embedding of ioBroker plugins-base: the plugin base class
(lib/PluginBase.js, callback variant) and the plugin handler in both its
callback variant and its async variant, together with the host-namespace
regex substitution used by the enabled-state resolver.

Machine model: JavaScript runtime values are `JsVal`; the external
objects/states databases are a `World` of total lookup functions; the
nullable DB handles of a plugin instance are `Option Unit` binding markers
(the stores themselves live in the `World`, which the code accesses through
the bound handles); synchronous JS throws are `Except` errors.
-/

namespace PluginsBase

/-- JavaScript runtime values, as far as the enabled-flag logic inspects
them: undefined, null, booleans, numbers, strings and (other) objects. -/
inductive JsVal
  | undef
  | null
  | bool (b : Bool)
  | num (n : Int)
  | str (s : String)
  | obj
deriving DecidableEq

/-- JavaScript truthiness, i.e. the coercion performed by a double bang. -/
def JsVal.truthy : JsVal → Bool
  | .undef => false
  | .null => false
  | .bool b => b
  | .num n => n != 0
  | .str s => s != ""
  | .obj => true

/-- Whether `typeof v` is the string 'object' (true for null and objects). -/
def JsVal.typeofObject : JsVal → Bool
  | .null => true
  | .obj => true
  | _ => false

/-- A stored state record; `src` models the record's `from` field. -/
structure StEntry where
  val : JsVal
  ack : Bool
  src : String
deriving DecidableEq

/-- Result of reading a state id from the states DB: a service-level error
(delivered as the callback's err argument), no stored state (a falsy state
argument), or a stored record. -/
inductive ReadResult
  | err
  | missing
  | found (e : StEntry)
deriving DecidableEq

/-- The fields of the objects the plugin base upserts (their `type` and
`common.name`); the object store is otherwise opaque to the core. -/
structure ObjDef where
  type : String
  commonName : String
deriving DecidableEq

/-- The external persistence world: states keyed by id and objects keyed
by id, shared by every plugin instance. -/
structure World where
  states : String → ReadResult
  objects : String → Option ObjDef

/-- Store a state record at an id (the effect of a successful setState). -/
def World.setStateVal (w : World) (id : String) (e : StEntry) : World :=
  { w with states := fun k => if k = id then .found e else w.states k }

/-- Store an object at an id (the effect of a successful setObject or
extendObject; the external merge semantics is opaque, the upserted fields
are recorded). -/
def World.setObj (w : World) (id : String) (o : ObjDef) : World :=
  { w with objects := fun k => if k = id then some o else w.objects k }

/-- Behavior of the developer-supplied init hook: calls back success,
calls back an error, or throws synchronously. The base class default hook
calls back the error string 'Not implemented'. -/
inductive HookOutcome
  | ok
  | fail (e : String)
  | throws (e : String)
deriving DecidableEq

/-- Thrown JavaScript errors, split by constructor. -/
inductive JsErr
  | typeError (msg : String)
  | error (msg : String)
deriving DecidableEq

/-- A plugin configuration blob; only its `enabled` property is inspected
by the core (absent property = undefined). -/
structure PluginConfig where
  enabled : JsVal
deriving DecidableEq

/-- The `common` part of a parent io-package: the adapter name and the
optional host identifier. -/
structure CommonCfg where
  name : String
  host : Option String
deriving DecidableEq

/-- A parent io-package; `common` may be absent. -/
structure ParentConfig where
  common : Option CommonCfg
deriving DecidableEq

/-- `this.SCOPES.ADAPTER` of the base class. -/
def SCOPES_ADAPTER : String := "adapter"

/-- A plugin instance: identity fields from the constructor, the two
nullable DB handles, the isActive flag, and the developer-supplied hook
behaviors (`initHook` the init callback outcome, `destroyHook` the boolean
return of destroy). -/
structure PluginInstance where
  pluginScope : String
  pluginNamespace : String
  objectsDb : Option Unit
  statesDb : Option Unit
  isActive : Bool
  initHook : HookOutcome
  destroyHook : Bool
deriving DecidableEq

/-- PluginBase.getState: throws unless the states DB handle is bound,
otherwise delivers the read result of the external store. -/
def PluginInstance.getState (p : PluginInstance) (w : World) (id : String) :
    Except JsErr ReadResult :=
  match p.statesDb with
  | none => .error (.error "States Database not initialized.")
  | some _ => .ok (w.states id)

/-- PluginBase.setState: throws unless the states DB handle is bound,
otherwise stores the record. -/
def PluginInstance.setState (p : PluginInstance) (w : World) (id : String)
    (e : StEntry) : Except JsErr World :=
  match p.statesDb with
  | none => .error (.error "States Database not initialized.")
  | some _ => .ok (w.setStateVal id e)

/-- PluginBase.getObject: throws unless the objects DB handle is bound. -/
def PluginInstance.getObject (p : PluginInstance) (w : World) (id : String) :
    Except JsErr (Option ObjDef) :=
  match p.objectsDb with
  | none => .error (.error "Objects Database not initialized.")
  | some _ => .ok (w.objects id)

/-- PluginBase.setObject: throws unless the objects DB handle is bound. -/
def PluginInstance.setObject (p : PluginInstance) (w : World) (id : String)
    (o : ObjDef) : Except JsErr World :=
  match p.objectsDb with
  | none => .error (.error "Objects Database not initialized.")
  | some _ => .ok (w.setObj id o)

/-- PluginBase.extendObject: throws unless the objects DB handle is bound. -/
def PluginInstance.extendObject (p : PluginInstance) (w : World) (id : String)
    (o : ObjDef) : Except JsErr World :=
  match p.objectsDb with
  | none => .error (.error "Objects Database not initialized.")
  | some _ => .ok (w.setObj id o)

/-- PluginBase.setActive: assigns `isActive` and then persists
`<pluginNamespace>.enabled` through setState (which throws when the states
DB is unbound; the isActive assignment has happened by then, as in the
source). The double-bang coercion is the identity on the Bool argument. -/
def PluginInstance.setActive (p : PluginInstance) (w : World) (active : Bool) :
    PluginInstance × Except JsErr World :=
  let p' := { p with isActive := active }
  (p', p'.setState w (p.pluginNamespace ++ ".enabled")
        ⟨.bool active, true, p.pluginNamespace⟩)

/-- PluginBase.setDatabase: binds both DB handles. -/
def PluginInstance.setDatabase (p : PluginInstance) : PluginInstance :=
  { p with objectsDb := some (), statesDb := some () }

/-!
A small regular-expression engine for the pattern the source builds with
`new RegExp('system\.adapter\.' + parentConfig.common.name + '\.[0-9]+\.')`.
At the JavaScript string-literal level the backslash-dot escapes collapse
to plain dots, so the regex source string has unescaped wildcard dots and
the adapter name inserted verbatim. The engine covers the constructs such
a pattern can contain for ordinary and mildly unusual adapter names:
literal characters, the wildcard dot, character classes with ranges, and
the one-or-more quantifier; anything else makes parsing fail the way the
RegExp constructor would throw (or is outside this model, and is not used
by any theorem below).
-/

/-- A regex atom: a literal character, the wildcard dot (which does not
match line terminators), or a character class given by inclusive ranges. -/
inductive RAtom
  | lit (c : Char)
  | dot
  | cls (ranges : List (Char × Char))
deriving DecidableEq

/-- A regex element: one atom or a greedy one-or-more repetition. -/
inductive RElem
  | one (a : RAtom)
  | many1 (a : RAtom)
deriving DecidableEq

/-- Whether an atom matches a character. -/
def RAtom.matchesChar : RAtom → Char → Bool
  | .lit c, d => c = d
  | .dot, d => d != '\n' && d != '\r'
  | .cls rs, d => rs.any fun r => decide (r.1 ≤ d) && decide (d ≤ r.2)

/-- Backtracking matcher: match the element list against a prefix of the
character list, greedily as the JS engine would, returning the unmatched
suffix of the first (in backtracking order) successful match. -/
def matchSeq : List RElem → List Char → Option (List Char)
  | [], s => some s
  | .one _ :: _, [] => none
  | .one a :: ps, c :: s => if a.matchesChar c then matchSeq ps s else none
  | .many1 _ :: _, [] => none
  | .many1 a :: ps, c :: s =>
      if a.matchesChar c then
        match matchSeq (.many1 a :: ps) s with
        | some r => some r
        | none => matchSeq ps s
      else none

/-- Leftmost-match replacement: scan positions left to right, and at the
first position where the pattern matches, splice in the replacement. -/
def replaceFirstAux (ps : List RElem) (repl : List Char) :
    List Char → Option (List Char)
  | [] =>
      match matchSeq ps [] with
      | some rest => some (repl ++ rest)
      | none => none
  | c :: s =>
      match matchSeq ps (c :: s) with
      | some rest => some (repl ++ rest)
      | none => (replaceFirstAux ps repl s).map (fun l => c :: l)

/-- `String.prototype.replace` with a (non-global) regex: replace the
leftmost match if any, otherwise return the subject unchanged. -/
def jsReplace (ps : List RElem) (repl : List Char) (s : List Char) : List Char :=
  (replaceFirstAux ps repl s).getD s

/-- Characters this model treats as plain literals in a pattern. -/
def isPlainChar (c : Char) : Bool :=
  c.isAlphanum || c = '-' || c = '_' || c = ' '

/-- Parse a character-class body after the opening bracket: single
characters and ranges until the closing bracket. Returns none for class
syntax outside this model (negation, escapes) and for an unterminated
class (where the RegExp constructor throws). -/
def parseCls : List Char → List (Char × Char) →
    Option (List (Char × Char) × List Char)
  | [], _ => none
  | ']' :: rest, acc => some (acc.reverse, rest)
  | '^' :: _, _ => none
  | '\\' :: _, _ => none
  | a :: '-' :: b :: rest, acc =>
      if b = ']' then some ((('-', '-') :: (a, a) :: acc).reverse, rest)
      else parseCls rest ((a, b) :: acc)
  | a :: rest, acc => parseCls rest ((a, a) :: acc)

/-- Parse a regex source string into elements; the fuel bounds the number
of consumed characters (one unit per character suffices). The quantifier
attaches to the preceding atom; a leading or doubled quantifier is a
syntax error, as in the RegExp constructor. Characters outside the
modelled fragment make parsing fail (conservatively unmodelled). -/
def parsePatAux : Nat → List Char → List RElem → Option (List RElem)
  | _, [], acc => some acc.reverse
  | 0, _ :: _, _ => none
  | fuel + 1, '+' :: rest, acc =>
      match acc with
      | .one a :: acc2 => parsePatAux fuel rest (.many1 a :: acc2)
      | _ => none
  | fuel + 1, '.' :: rest, acc => parsePatAux fuel rest (.one .dot :: acc)
  | fuel + 1, '[' :: rest, acc =>
      match parseCls rest [] with
      | some (rs, rest2) => parsePatAux fuel rest2 (.one (.cls rs) :: acc)
      | none => none
  | fuel + 1, c :: rest, acc =>
      if isPlainChar c then parsePatAux fuel rest (.one (.lit c) :: acc)
      else none

/-- Parse a whole regex source string. -/
def parsePat (s : String) : Option (List RElem) :=
  parsePatAux s.toList.length s.toList []

/-- The regex source string the code builds: in the JS string literal
`'system\.adapter\.' + name + '\.[0-9]+\.'` the backslash-dot pairs are
string-level escapes that collapse to plain dots, so the resulting pattern
has unescaped dots and the raw adapter name. -/
def hostPatternSource (name : String) : String :=
  "system.adapter." ++ name ++ ".[0-9]+."

/-- The host-namespace substitution from PluginBase.initPlugin line 187:
`pluginNamespace.replace(new RegExp(pattern), 'system.host.' + host + '.')`.
Returns none when the RegExp constructor throws on the built pattern. -/
def hostNamespaceOf (pluginNamespace name host : String) : Option String :=
  match parsePat (hostPatternSource name) with
  | none => none
  | some ps =>
      some (String.mk (jsReplace ps
        ("system.host." ++ host ++ ".").toList pluginNamespace.toList))

/-- The static configuration default of the resolver, the expression
`pluginConfig.enabled === undefined ? true : !!pluginConfig.enabled` that
appears at lines 191 and 200 of PluginBase.initPlugin. -/
def configDefault (c : PluginConfig) : Bool :=
  if c.enabled = .undef then true else c.enabled.truthy

/-- The own-flag rejection condition of line 183,
`err || !state || typeof state.val === 'object' || state.val === undefined`,
over a read result (the err argument folded into `ReadResult.err`). -/
def ownFlagIll : ReadResult → Bool
  | .err => true
  | .missing => true
  | .found st => st.val.typeofObject || decide (st.val = .undef)

/-- The host-flag rejection condition of line 189, `err || !hostState ||
typeof hostState.val !== 'boolean' || hostState.val === undefined`. -/
def hostFlagIll : ReadResult → Bool
  | .err => true
  | .missing => true
  | .found st =>
      match st.val with
      | .bool _ => false
      | _ => true

/-- The truthy `parentConfig && parentConfig.common && parentConfig.common.host`
chain of line 185: the pair of `common.name` and `common.host` when the
whole chain is truthy (an empty host string is falsy). -/
def hostChain : Option ParentConfig → Option (String × String)
  | none => none
  | some pc =>
      match pc.common with
      | none => none
      | some cm =>
          match cm.host with
          | none => none
          | some h => if h = "" then none else some (cm.name, h)

/-- Lines 185-201 of PluginBase.initPlugin: the host-level fallback (only
in adapter scope with a truthy parent host) and the configuration default.
The only throw paths are an unbound states DB and a throwing RegExp
constructor. -/
def hostOrDefault (p : PluginInstance) (w : World) (c : PluginConfig)
    (pc : Option ParentConfig) : Except JsErr Bool :=
  match hostChain pc with
  | some (nm, h) =>
      if p.pluginScope = SCOPES_ADAPTER then
        match hostNamespaceOf p.pluginNamespace nm h with
        | none => .error (.error "Invalid regular expression")
        | some hostNs =>
            match p.getState w (hostNs ++ ".enabled") with
            | .error e => .error e
            | .ok (.found hst) =>
                match hst.val with
                | .bool b => .ok b
                | _ => .ok (configDefault c)
            | .ok _ => .ok (configDefault c)
      else .ok (configDefault c)
  | none => .ok (configDefault c)

/-- Lines 182-205 of PluginBase.initPlugin: read the plugin's own persisted
enabled flag; if present and well-typed use its truthiness, otherwise fall
through to the host tier or the configuration default. -/
def enabledDecision (p : PluginInstance) (w : World) (c : PluginConfig)
    (pc : Option ParentConfig) : Except JsErr Bool :=
  match p.getState w (p.pluginNamespace ++ ".enabled") with
  | .error e => .error e
  | .ok (.found st) =>
      if st.val.typeofObject ∨ st.val = .undef then hostOrDefault p w c pc
      else .ok st.val.truthy
  | .ok _ => hostOrDefault p w c pc

/-- The folder object upserted at the plugin namespace. -/
def folderObj : ObjDef := ⟨"folder", "Plugin States"⟩

/-- The state-definition object upserted at the enabled id. -/
def enabledStateObj : ObjDef := ⟨"state", "Plugin - enabled"⟩

/-- PluginBase.initPlugin from the first extendObject up to the point where
_initialize is invoked: upsert the folder and the enabled state definition
(the second upsert's callback error is ignored by the source), then resolve
the activate flag. A throw (unbound DB handle, RegExp error) carries the
world at the point of the throw. -/
def resolvePhase (p : PluginInstance) (w : World) (c : PluginConfig)
    (pc : Option ParentConfig) : Except (JsErr × World) (World × Bool) :=
  match p.extendObject w p.pluginNamespace folderObj with
  | .error e => .error (e, w)
  | .ok w1 =>
      match p.extendObject w1 (p.pluginNamespace ++ ".enabled") enabledStateObj with
      | .error e => .error (e, w1)
      | .ok w2 =>
          match enabledDecision p w2 c pc with
          | .error e => .error (e, w2)
          | .ok b => .ok (w2, b)

/-- The two callback arguments `(err, initSuccessful)` the base reports
upward; an omitted success argument is the falsy undefined. -/
structure CbOut where
  err : Option String
  success : Bool
deriving DecidableEq

/-- PluginBase._initialize (lines 211-228, callback variant): when activate
is set, inject `enabled = true` into the plugin config and run the init
hook, then persist the resulting active state through setActive and call
back; when activate is clear, skip the hook, deactivate and call back
(null, false). A synchronous throw of the hook propagates without any
setActive write. -/
def initializeStep (p : PluginInstance) (w : World) (c : PluginConfig)
    (activate : Bool) :
    Except (JsErr × World) (PluginInstance × PluginConfig × World × CbOut) :=
  if activate then
    let c' := { c with enabled := .bool true }
    match p.initHook with
    | .ok =>
        match p.setActive w true with
        | (_p, .error e) => .error (e, w)
        | (p', .ok w') => .ok (p', c', w', ⟨none, true⟩)
    | .fail e =>
        match p.setActive w false with
        | (_p, .error e2) => .error (e2, w)
        | (p', .ok w') => .ok (p', c', w', ⟨some e, false⟩)
    | .throws e => .error (.error e, w)
  else
    match p.setActive w false with
    | (_p, .error e) => .error (e, w)
    | (p', .ok w') => .ok (p', c, w', ⟨none, false⟩)

/-- PluginBase.initPlugin (whole method, callback variant): a falsy plugin
config calls back 'No configuration for plugin' immediately; otherwise the
resolution phase runs and _initialize finishes. -/
def initPluginBase (p : PluginInstance) (w : World) (cfg : Option PluginConfig)
    (pc : Option ParentConfig) :
    Except (JsErr × World) (PluginInstance × Option PluginConfig × World × CbOut) :=
  match cfg with
  | none => .ok (p, none, w, ⟨some "No configuration for plugin", false⟩)
  | some c =>
      match resolvePhase p w c pc with
      | .error ew => .error ew
      | .ok (w2, activate) =>
          match initializeStep p w2 c activate with
          | .error ew => .error ew
          | .ok (p', c', w', out) => .ok (p', some c', w', out)

/-- Outcome of the promise-based initPlugin: the promise resolves or
rejects; both carry the mutated instance, config and world. -/
inductive AsyncOut
  | resolved (p : PluginInstance) (c : Option PluginConfig) (w : World)
  | rejected (p : PluginInstance) (c : Option PluginConfig) (w : World)

/-- Modelled from the spec: the promise-based PluginBase.initPlugin, whose
implementation is not among the sources (only its declaration file is).
Per the spec it runs the same resolution as the callback variant; per
section 4.2, on hook success it marks Active; on hook failure or throw it
marks Inactive (persisting enabled=false) and reports failure upward (the
promise rejects); when activate is false it skips the hook, marks Inactive
and resolves, since "not activated" is not an error. Synchronous throws
(missing config, unbound DB handles, RegExp errors) surface as rejections
of the async method. -/
def initPluginBaseAsync (p : PluginInstance) (w : World)
    (cfg : Option PluginConfig) (pc : Option ParentConfig) : AsyncOut :=
  match cfg with
  | none => .rejected p none w
  | some c =>
      match resolvePhase p w c pc with
      | .error (_, w1) => .rejected p (some c) w1
      | .ok (w2, activate) =>
          if activate then
            let c' := { c with enabled := .bool true }
            match p.initHook with
            | .ok =>
                match p.setActive w2 true with
                | (p', .error _) => .rejected p' (some c') w2
                | (p', .ok w') => .resolved p' (some c') w'
            | .fail _ =>
                match p.setActive w2 false with
                | (p', .error _) => .rejected p' (some c') w2
                | (p', .ok w') => .rejected p' (some c') w'
            | .throws _ =>
                match p.setActive w2 false with
                | (p', .error _) => .rejected p' (some c') w2
                | (p', .ok w') => .rejected p' (some c') w'
          else
            match p.setActive w2 false with
            | (p', .error _) => .rejected p' (some c) w2
            | (p', .ok w') => .resolved p' (some c) w'

/-!
The handler (registry of slots). Its `plugins` object is an ordered
association list, since JS object iteration follows string-key insertion
order; `inst` models the slot's `instance` property (a Lean keyword).
Slot mutation in place is modelled by rewriting the slot under its name.
-/

/-- A registry slot: the stored configuration (falsy config = none) and
the optional live instance. -/
structure Slot where
  config : Option PluginConfig
  inst : Option PluginInstance

/-- The handler's registry of slots. -/
structure Handler where
  plugins : List (String × Slot)

/-- Property lookup on the plugins object: the slot under a name. -/
def slotsLookup : List (String × Slot) → String → Option Slot
  | [], _ => none
  | (k, s) :: rest, name => if k = name then some s else slotsLookup rest name

/-- `this.plugins[name]`. -/
def Handler.lookup (h : Handler) (name : String) : Option Slot :=
  slotsLookup h.plugins name

/-- Rewrite the slot stored under a name (in-place slot mutation). -/
def Handler.setSlot (h : Handler) (name : String) (s : Slot) : Handler :=
  ⟨h.plugins.map fun ns => if ns.1 = name then (ns.1, s) else ns⟩

/-- PluginHandler.getPluginInstance: the instance, or null when the slot
or its instance is missing. -/
def Handler.getPluginInstance (h : Handler) (name : String) :
    Option PluginInstance :=
  match h.lookup name with
  | none => none
  | some s => s.inst

/-- PluginHandler.getPluginConfig: the config, or null when the slot or
its config is missing. -/
def Handler.getPluginConfig (h : Handler) (name : String) :
    Option PluginConfig :=
  match h.lookup name with
  | none => none
  | some s => s.config

/-- PluginHandler.pluginExists. -/
def Handler.pluginExists (h : Handler) (name : String) : Bool :=
  (h.lookup name).isSome

/-- PluginHandler.isPluginInstantiated (called isPluginInitialized in the
callback-variant handler; both test that the slot holds an instance). -/
def Handler.isPluginInstantiated (h : Handler) (name : String) : Bool :=
  match h.lookup name with
  | none => false
  | some s => s.inst.isSome

/-- PluginHandler.isPluginActive: the slot holds an instance whose
isActive flag is set. -/
def Handler.isPluginActive (h : Handler) (name : String) : Bool :=
  match h.lookup name with
  | none => false
  | some s =>
      match s.inst with
      | none => false
      | some p => p.isActive

/-- PluginHandler.initPlugin (async-variant handler): reads
`this.plugins[name].instance` first, so a missing slot throws a TypeError;
a slot without an instance throws an Error; otherwise the base init runs
and a rejection is caught by destroying (hook result ignored) and deleting
the instance. -/
def Handler.initPluginAsync (h : Handler) (w : World) (name : String)
    (pc : Option ParentConfig) : Except JsErr (Handler × World) :=
  match h.lookup name with
  | none =>
      .error (.typeError "Cannot read properties of undefined (reading 'instance')")
  | some slot =>
      match slot.inst with
      | none => .error (.error "Please instantiate plugin first!")
      | some p =>
          match initPluginBaseAsync p w slot.config pc with
          | .resolved p' c' w' => .ok (h.setSlot name ⟨c', some p'⟩, w')
          | .rejected _ c' w' => .ok (h.setSlot name ⟨c', none⟩, w')

/-- The loop body of PluginHandler.initPlugins (async variant, lines
139-142): iterate the entries snapshot in order; the source line
`if (!plugin.instance) return;` returns from initPlugins itself, ending
the whole loop, rather than skipping the slot. -/
def initPluginsAsyncGo (entries : List (String × Slot)) (h : Handler)
    (w : World) (pc : Option ParentConfig) : Except JsErr (Handler × World) :=
  match entries with
  | [] => .ok (h, w)
  | (name, slot) :: rest =>
      match slot.inst with
      | none => .ok (h, w)
      | some _ =>
          match h.initPluginAsync w name pc with
          | .error e => .error e
          | .ok (h', w') => initPluginsAsyncGo rest h' w' pc

/-- PluginHandler.initPlugins (async variant). -/
def Handler.initPluginsAsync (h : Handler) (w : World)
    (pc : Option ParentConfig) : Except JsErr (Handler × World) :=
  initPluginsAsyncGo h.plugins h w pc

/-- The loop body of PluginHandler.initPlugins (callback variant, lines
100-112): every slot with an instance is processed (the `return` inside
the forEach callback skips just that slot); when the base calls back an
error or an unsuccessful init, the instance is destroyed (hook result
ignored) and deleted. A synchronous throw out of the base propagates
uncaught. Completions are modelled in slot order. -/
def initPluginsCbGo (entries : List (String × Slot)) (h : Handler)
    (w : World) (pc : Option ParentConfig) :
    Except (JsErr × World) (Handler × World) :=
  match entries with
  | [] => .ok (h, w)
  | (name, slot) :: rest =>
      match slot.inst with
      | none => initPluginsCbGo rest h w pc
      | some p =>
          match initPluginBase p w slot.config pc with
          | .error ew => .error ew
          | .ok (p', c', w', out) =>
              let h' :=
                if out.err.isSome || !out.success then h.setSlot name ⟨c', none⟩
                else h.setSlot name ⟨c', some p'⟩
              initPluginsCbGo rest h' w' pc

/-- PluginHandler.initPlugins (callback variant). -/
def Handler.initPluginsCb (h : Handler) (w : World)
    (pc : Option ParentConfig) : Except (JsErr × World) (Handler × World) :=
  initPluginsCbGo h.plugins h w pc

/-- PluginHandler.destroy(name, force) (async-variant handler, lines
151-165): reads `this.plugins[name].instance`, so a missing slot throws a
TypeError; with no instance it returns true; otherwise the destroy hook
runs, and if it reports success or force is set the instance is evicted
(with `!force && instance.setActive(false)` persisting the final state in
the unforced case) and true is returned, else false. -/
def Handler.destroyOne (h : Handler) (w : World) (name : String)
    (force : Bool) : Except JsErr (Handler × World × Bool) :=
  match h.lookup name with
  | none =>
      .error (.typeError "Cannot read properties of undefined (reading 'instance')")
  | some slot =>
      match slot.inst with
      | none => .ok (h, w, true)
      | some p =>
          if p.destroyHook || force then
            if force then .ok (h.setSlot name ⟨slot.config, none⟩, w, true)
            else
              match p.setActive w false with
              | (_, .error e) => .error e
              | (_, .ok w') => .ok (h.setSlot name ⟨slot.config, none⟩, w', true)
          else .ok (h, w, false)

/-! Concrete sample data used by witnesses and counterexamples. -/

/-- A world with empty stores. -/
def w0 : World := ⟨fun _ => .missing, fun _ => none⟩

/-- A bound adapter-scope instance at a fixed namespace with a chosen
init-hook behavior. -/
def boundInst (hook : HookOutcome) : PluginInstance :=
  ⟨"adapter", "system.adapter.x.0.plugins.sentry", some (), some (), false, hook, true⟩

/-- An unbound adapter-scope instance. -/
def unboundP : PluginInstance :=
  ⟨"adapter", "system.adapter.x.0.plugins.sentry", none, none, false, .ok, true⟩

/-- A configuration with no enabled property. -/
def cfgU : PluginConfig := ⟨.undef⟩

/-- The empty registry. -/
def emptyH : Handler := ⟨[]⟩

/-! Helper lemmas. -/

/-- Object upserts do not touch the states store. -/
theorem World.setObj_states (w : World) (id : String) (o : ObjDef) :
    (w.setObj id o).states = w.states := rfl

/-- Rewriting the slot under a registered name is observed by lookup. -/
theorem slotsLookup_set (l : List (String × Slot)) (name : String) (s : Slot)
    (hl : (slotsLookup l name).isSome) :
    slotsLookup (l.map fun ns => if ns.1 = name then (ns.1, s) else ns) name
      = some s := by
  induction l with
  | nil => simp [slotsLookup] at hl
  | cons hd tl ih =>
      obtain ⟨k, v⟩ := hd
      simp only [List.map_cons]
      by_cases hk : k = name
      · subst hk
        have h1 : (if (k, v).1 = k then ((k, v).1, s) else (k, v)) = (k, s) :=
          if_pos rfl
        rw [h1]
        simp [slotsLookup]
      · have h1 : (if (k, v).1 = name then ((k, v).1, s) else (k, v)) = (k, v) := by
          simp [hk]
        rw [h1]
        simp only [slotsLookup, if_neg hk] at hl ⊢
        exact ih hl

/-- Handler-level version of the lookup-after-set lemma. -/
theorem Handler.lookup_setSlot (h : Handler) (name : String) (s : Slot)
    (hl : (h.lookup name).isSome) : (h.setSlot name s).lookup name = some s :=
  slotsLookup_set h.plugins name s hl

/-- With a bound states DB and an unusable own flag, the decision falls
through to the host tier or the default. -/
theorem enabledDecision_own_ill (p : PluginInstance) (w : World)
    (c : PluginConfig) (pc : Option ParentConfig) (hdb : p.statesDb = some ())
    (hown : ownFlagIll (w.states (p.pluginNamespace ++ ".enabled")) = true) :
    enabledDecision p w c pc = hostOrDefault p w c pc := by
  cases hw : w.states (p.pluginNamespace ++ ".enabled") with
  | err => simp [enabledDecision, PluginInstance.getState, hdb, hw]
  | missing => simp [enabledDecision, PluginInstance.getState, hdb, hw]
  | found st =>
      rw [hw] at hown
      simp only [ownFlagIll, Bool.or_eq_true, decide_eq_true_eq] at hown
      simp only [enabledDecision, PluginInstance.getState, hdb, hw]
      rw [if_pos hown]

/-- With a bound states DB, adapter scope, a truthy host chain and a
well-typed boolean host flag at the derived namespace, the host tier
yields that boolean. -/
theorem hostOrDefault_host_bool (p : PluginInstance) (w : World)
    (c : PluginConfig) (pc : Option ParentConfig) (nm hs hns : String)
    (e : StEntry) (b : Bool)
    (hdb : p.statesDb = some ()) (hscope : p.pluginScope = "adapter")
    (hchain : hostChain pc = some (nm, hs))
    (hhns : hostNamespaceOf p.pluginNamespace nm hs = some hns)
    (hhost : w.states (hns ++ ".enabled") = .found e) (hval : e.val = .bool b) :
    hostOrDefault p w c pc = .ok b := by
  simp only [hostOrDefault, hchain]
  rw [if_pos (by rw [hscope]; rfl)]
  simp [hhns, PluginInstance.getState, hdb, hhost, hval]

/-! Claim theorems. -/

/-- C5: on an instance whose DB handles are still null, each of the five
persistence accessors getState, setState, getObject, setObject and
extendObject fails immediately with a database-not-initialized error;
none silently no-ops or forwards to a null handle. -/
theorem c5_accessors_throw_before_bind (p : PluginInstance) (w : World)
    (hs : p.statesDb = none) (ho : p.objectsDb = none) :
    (∀ id, p.getState w id = .error (.error "States Database not initialized."))
  ∧ (∀ id e, p.setState w id e = .error (.error "States Database not initialized."))
  ∧ (∀ id, p.getObject w id = .error (.error "Objects Database not initialized."))
  ∧ (∀ id o, p.setObject w id o = .error (.error "Objects Database not initialized."))
  ∧ (∀ id o, p.extendObject w id o = .error (.error "Objects Database not initialized.")) := by
  refine ⟨fun id => ?_, fun id e => ?_, fun id => ?_, fun id o => ?_, fun id o => ?_⟩ <;>
    simp [PluginInstance.getState, PluginInstance.setState, PluginInstance.getObject,
          PluginInstance.setObject, PluginInstance.extendObject, hs, ho]

/-- Witness for C5 at a concrete unbound instance. -/
theorem c5_accessors_throw_before_bind_witness :
    unboundP.getState w0 "a" = .error (.error "States Database not initialized.") :=
  (c5_accessors_throw_before_bind unboundP w0 rfl rfl).1 "a"

/-- C9: for a name that was never registered, the query accessors return
null or false without throwing, while destroy and initPlugin throw a
TypeError by reading the instance property of an undefined slot. -/
theorem c9_unknown_name (h : Handler) (w : World) (name : String)
    (hn : h.lookup name = none) :
    h.getPluginInstance name = none
  ∧ h.getPluginConfig name = none
  ∧ h.pluginExists name = false
  ∧ h.isPluginInstantiated name = false
  ∧ h.isPluginActive name = false
  ∧ (∀ force, h.destroyOne w name force =
      .error (.typeError "Cannot read properties of undefined (reading 'instance')"))
  ∧ (∀ pc, h.initPluginAsync w name pc =
      .error (.typeError "Cannot read properties of undefined (reading 'instance')")) := by
  refine ⟨?_, ?_, ?_, ?_, ?_, fun force => ?_, fun pc => ?_⟩ <;>
    simp [Handler.getPluginInstance, Handler.getPluginConfig, Handler.pluginExists,
          Handler.isPluginInstantiated, Handler.isPluginActive, Handler.destroyOne,
          Handler.initPluginAsync, hn]

/-- Witness for C9 at the empty registry. -/
theorem c9_unknown_name_witness :
    emptyH.destroyOne w0 "sentry" false =
      .error (.typeError "Cannot read properties of undefined (reading 'instance')") :=
  ((c9_unknown_name emptyH w0 "sentry" rfl).2.2.2.2.2.1) false

/-- C2: the activate flag is resolved in strict priority order. (a) A
present, well-typed own persisted flag (not an error, not absent, value
neither of object type nor undefined) decides by its truthiness, for every
host flag and configuration. (b) Otherwise, only in adapter scope with a
truthy parentConfig.common.host, a well-typed boolean at the derived host
namespace decides. (c) Otherwise the configuration default decides
(`configDefault`, the coercion of pluginConfig.enabled, true when it is
undefined). -/
theorem c2_resolution_priority (p : PluginInstance) (w : World)
    (c : PluginConfig) (pc : Option ParentConfig)
    (hdb : p.statesDb = some ()) :
    (∀ st, w.states (p.pluginNamespace ++ ".enabled") = .found st →
        st.val.typeofObject = false → st.val ≠ .undef →
        enabledDecision p w c pc = .ok st.val.truthy)
  ∧ (∀ nm hs hns e b,
        ownFlagIll (w.states (p.pluginNamespace ++ ".enabled")) = true →
        p.pluginScope = "adapter" →
        hostChain pc = some (nm, hs) →
        hostNamespaceOf p.pluginNamespace nm hs = some hns →
        w.states (hns ++ ".enabled") = .found e → e.val = .bool b →
        enabledDecision p w c pc = .ok b)
  ∧ (ownFlagIll (w.states (p.pluginNamespace ++ ".enabled")) = true →
        (hostChain pc = none → enabledDecision p w c pc = .ok (configDefault c))
      ∧ (p.pluginScope ≠ "adapter" →
          enabledDecision p w c pc = .ok (configDefault c))
      ∧ (∀ nm hs hns,
          hostChain pc = some (nm, hs) →
          hostNamespaceOf p.pluginNamespace nm hs = some hns →
          hostFlagIll (w.states (hns ++ ".enabled")) = true →
          enabledDecision p w c pc = .ok (configDefault c))) := by
  refine ⟨?_, ?_, ?_⟩
  · intro st hst hto hundef
    simp [enabledDecision, PluginInstance.getState, hdb, hst, hto, hundef]
  · intro nm hs hns e b hown hscope hchain hhns hhost hval
    rw [enabledDecision_own_ill p w c pc hdb hown]
    exact hostOrDefault_host_bool p w c pc nm hs hns e b hdb hscope hchain hhns
      hhost hval
  · intro hown
    refine ⟨?_, ?_, ?_⟩
    · intro hchain
      rw [enabledDecision_own_ill p w c pc hdb hown]
      simp [hostOrDefault, hchain]
    · intro hscope
      rw [enabledDecision_own_ill p w c pc hdb hown]
      cases hchain : hostChain pc with
      | none => simp [hostOrDefault, hchain]
      | some nh =>
          simp only [hostOrDefault, hchain]
          rw [if_neg (by rw [SCOPES_ADAPTER] at *; exact hscope)]
    · intro nm hs hns hchain hhns hhostill
      rw [enabledDecision_own_ill p w c pc hdb hown]
      simp only [hostOrDefault, hchain]
      by_cases hscope : p.pluginScope = SCOPES_ADAPTER
      · rw [if_pos hscope]
        cases hhost : w.states (hns ++ ".enabled") with
        | err => simp [hhns, PluginInstance.getState, hdb, hhost]
        | missing => simp [hhns, PluginInstance.getState, hdb, hhost]
        | found e =>
            rw [hhost] at hhostill
            simp only [hostFlagIll] at hhostill
            cases hv : e.val <;>
              (simp [hhns, PluginInstance.getState, hdb, hhost, hv];
               try simp [hv] at hhostill)
      · rw [if_neg hscope]

/-- A world whose only stored state is a true own flag for the sample
namespace. -/
def wOwnTrue : World :=
  ⟨fun k => if k = "system.adapter.x.0.plugins.sentry.enabled"
      then .found ⟨.bool true, true, "w"⟩ else .missing,
   fun _ => none⟩

/-- Witness for C2: priority tier (a) at a concrete instance and store. -/
theorem c2_resolution_priority_witness :
    enabledDecision (boundInst .ok) wOwnTrue cfgU none = .ok true :=
  (c2_resolution_priority (boundInst .ok) wOwnTrue cfgU none rfl).1
    ⟨.bool true, true, "w"⟩ (by decide) rfl (by decide)

/-- C8: with an unusable own flag, adapter scope and a persisted boolean
false host flag at the derived namespace, the resolution phase yields
activate = false and its reads write nothing into the states store: the
whole states map, in particular the plugin's own enabled state, is
unchanged when _initialize is reached. -/
theorem c8_host_fallback_read_only (p : PluginInstance) (w : World)
    (c : PluginConfig) (pc : Option ParentConfig) (nm hs hns : String)
    (ack : Bool) (src : String)
    (hdbo : p.objectsDb = some ()) (hdbs : p.statesDb = some ())
    (hscope : p.pluginScope = "adapter")
    (hown : ownFlagIll (w.states (p.pluginNamespace ++ ".enabled")) = true)
    (hchain : hostChain pc = some (nm, hs))
    (hhns : hostNamespaceOf p.pluginNamespace nm hs = some hns)
    (hhost : w.states (hns ++ ".enabled") = .found ⟨.bool false, ack, src⟩) :
    ∃ w2, resolvePhase p w c pc = .ok (w2, false) ∧ w2.states = w.states := by
  refine ⟨(w.setObj p.pluginNamespace folderObj).setObj
    (p.pluginNamespace ++ ".enabled") enabledStateObj, ?_, rfl⟩
  have hown2 : ownFlagIll
      (((w.setObj p.pluginNamespace folderObj).setObj
        (p.pluginNamespace ++ ".enabled") enabledStateObj).states
        (p.pluginNamespace ++ ".enabled")) = true := hown
  have hhost2 : ((w.setObj p.pluginNamespace folderObj).setObj
      (p.pluginNamespace ++ ".enabled") enabledStateObj).states
      (hns ++ ".enabled") = .found ⟨.bool false, ack, src⟩ := hhost
  have hd : enabledDecision p
      ((w.setObj p.pluginNamespace folderObj).setObj
        (p.pluginNamespace ++ ".enabled") enabledStateObj) c pc = .ok false := by
    rw [enabledDecision_own_ill p _ c pc hdbs hown2]
    exact hostOrDefault_host_bool p _ c pc nm hs hns ⟨.bool false, ack, src⟩
      false hdbs hscope hchain hhns hhost2 rfl
  simp [resolvePhase, PluginInstance.extendObject, hdbo, hd]

/-- A parent io-package naming adapter x on host hh. -/
def pcX : Option ParentConfig := some ⟨some ⟨"x", some "hh"⟩⟩

/-- A world whose only stored state is a false enabled flag at the derived
host namespace of the sample plugin. -/
def wHostFalse : World :=
  ⟨fun k => if k = "system.host.hh.plugins.sentry.enabled"
      then .found ⟨.bool false, true, "w"⟩ else .missing,
   fun _ => none⟩

/-- Witness for C8 at a concrete instance, parent package and store. -/
theorem c8_host_fallback_read_only_witness :
    ∃ w2, resolvePhase (boundInst .ok) wHostFalse cfgU pcX = .ok (w2, false)
      ∧ w2.states = wHostFalse.states :=
  c8_host_fallback_read_only (boundInst .ok) wHostFalse cfgU pcX
    "x" "hh" "system.host.hh.plugins.sentry" true "w"
    rfl rfl rfl (by decide) rfl rfl (by decide)

/-- C4: setActive keeps the in-memory flag and the persisted flag in sync:
on a bound instance it sets isActive to the given boolean and persists
exactly that boolean (acknowledged, from the plugin namespace); and among
the core's operations it is the only writer of the states store: the
resolution phase of initPlugin and the object upserts leave the whole
states map untouched. -/
theorem c4_setActive_only_writer (p : PluginInstance) (w : World) (b : Bool)
    (hdb : p.statesDb = some ()) :
    ((p.setActive w b).1.isActive = b
      ∧ (p.setActive w b).2 = .ok (w.setStateVal (p.pluginNamespace ++ ".enabled")
            ⟨.bool b, true, p.pluginNamespace⟩)
      ∧ (w.setStateVal (p.pluginNamespace ++ ".enabled")
            ⟨.bool b, true, p.pluginNamespace⟩).states
            (p.pluginNamespace ++ ".enabled")
          = .found ⟨.bool b, true, p.pluginNamespace⟩)
  ∧ (∀ c pc w2 a, resolvePhase p w c pc = .ok (w2, a) → w2.states = w.states)
  ∧ (∀ id o w2, p.setObject w id o = .ok w2 → w2.states = w.states)
  ∧ (∀ id o w2, p.extendObject w id o = .ok w2 → w2.states = w.states) := by
  refine ⟨⟨rfl, ?_, ?_⟩, ?_, ?_, ?_⟩
  · simp [PluginInstance.setActive, PluginInstance.setState, hdb]
  · simp [World.setStateVal]
  · intro c pc w2 a h
    cases hobj : p.objectsDb with
    | none => simp [resolvePhase, PluginInstance.extendObject, hobj] at h
    | some u =>
        simp only [resolvePhase, PluginInstance.extendObject, hobj] at h
        cases hd : enabledDecision p
            ((w.setObj p.pluginNamespace folderObj).setObj
              (p.pluginNamespace ++ ".enabled") enabledStateObj) c pc with
        | error e => rw [hd] at h; simp at h
        | ok bb =>
            rw [hd] at h
            simp only [Except.ok.injEq, Prod.mk.injEq] at h
            rw [← h.1]
            rfl
  · intro id o w2 h
    cases hobj : p.objectsDb with
    | none => simp [PluginInstance.setObject, hobj] at h
    | some u =>
        simp only [PluginInstance.setObject, hobj, Except.ok.injEq] at h
        rw [← h]
        rfl
  · intro id o w2 h
    cases hobj : p.objectsDb with
    | none => simp [PluginInstance.extendObject, hobj] at h
    | some u =>
        simp only [PluginInstance.extendObject, hobj, Except.ok.injEq] at h
        rw [← h]
        rfl

/-- Witness for C4's setActive conjunct at a concrete bound instance. -/
theorem c4_setActive_only_writer_witness :
    ((boundInst .ok).setActive w0 true).1.isActive = true
  ∧ ((boundInst .ok).setActive w0 true).2
      = .ok (w0.setStateVal ((boundInst .ok).pluginNamespace ++ ".enabled")
          ⟨.bool true, true, (boundInst .ok).pluginNamespace⟩)
  ∧ (w0.setStateVal ((boundInst .ok).pluginNamespace ++ ".enabled")
        ⟨.bool true, true, (boundInst .ok).pluginNamespace⟩).states
        ((boundInst .ok).pluginNamespace ++ ".enabled")
      = .found ⟨.bool true, true, (boundInst .ok).pluginNamespace⟩ :=
  (c4_setActive_only_writer (boundInst .ok) w0 true rfl).1

/-- C3 (refutation): the backslash-dot escapes in the source's pattern
string collapse at the JavaScript string-literal level and the adapter
name is inserted unescaped, so the claim fails: for the adapter name a+
the built regex matches nothing in the plugin's own namespace
system.adapter.a+.0.plugins.sentry, and the substitution returns the
namespace unchanged instead of the intended host namespace. The third
conjunct contrasts the plain name x, where the substitution does produce
the intended host namespace. -/
theorem c3_regex_not_escaped :
    hostNamespaceOf "system.adapter.a+.0.plugins.sentry" "a+" "h"
      = some "system.adapter.a+.0.plugins.sentry"
  ∧ hostNamespaceOf "system.adapter.a+.0.plugins.sentry" "a+" "h"
      ≠ some "system.host.h.plugins.sentry"
  ∧ hostNamespaceOf "system.adapter.x.0.plugins.sentry" "x" "h"
      = some "system.host.h.plugins.sentry" :=
  ⟨by decide, by decide, by decide⟩

/-- C7: destroy on a registered slot with a live instance. With force
clear, a false destroy hook leaves the instance in place and returns
false, while a true hook evicts the instance, persists the deactivation
through setActive(false), and returns true; with force set the instance
is always evicted and true is returned with the world untouched, so
setActive is not invoked. -/
theorem c7_destroy_semantics (h : Handler) (w : World) (name : String)
    (slot : Slot) (p : PluginInstance)
    (hl : h.lookup name = some slot) (hi : slot.inst = some p) :
    (p.destroyHook = false → h.destroyOne w name false = .ok (h, w, false))
  ∧ (p.destroyHook = true → p.statesDb = some () →
      h.destroyOne w name false =
        .ok (h.setSlot name ⟨slot.config, none⟩,
          w.setStateVal (p.pluginNamespace ++ ".enabled")
            ⟨.bool false, true, p.pluginNamespace⟩, true)
      ∧ (h.setSlot name ⟨slot.config, none⟩).isPluginInstantiated name = false)
  ∧ (h.destroyOne w name true =
        .ok (h.setSlot name ⟨slot.config, none⟩, w, true)
      ∧ (h.setSlot name ⟨slot.config, none⟩).isPluginInstantiated name = false) := by
  have hevict : (h.setSlot name ⟨slot.config, none⟩).isPluginInstantiated name
      = false := by
    simp [Handler.isPluginInstantiated,
      Handler.lookup_setSlot h name ⟨slot.config, none⟩ (by simp [hl])]
  refine ⟨?_, ?_, ?_⟩
  · intro hd
    simp [Handler.destroyOne, hl, hi, hd]
  · intro hd hdb
    refine ⟨?_, hevict⟩
    simp [Handler.destroyOne, hl, hi, hd, PluginInstance.setActive,
      PluginInstance.setState, hdb]
  · refine ⟨?_, hevict⟩
    simp [Handler.destroyOne, hl, hi]

/-- A one-slot registry holding a bound instance with a succeeding destroy
hook. -/
def hOne : Handler := ⟨[("sentry", ⟨some cfgU, some (boundInst .ok)⟩)]⟩

/-- Witness for C7's unforced successful-destroy case at a concrete
registry. -/
theorem c7_destroy_semantics_witness :
    hOne.destroyOne w0 "sentry" false =
      .ok (hOne.setSlot "sentry" ⟨some cfgU, none⟩,
        w0.setStateVal ((boundInst .ok).pluginNamespace ++ ".enabled")
          ⟨.bool false, true, (boundInst .ok).pluginNamespace⟩, true)
    ∧ (hOne.setSlot "sentry" ⟨some cfgU, none⟩).isPluginInstantiated "sentry"
        = false :=
  (c7_destroy_semantics hOne w0 "sentry" ⟨some cfgU, some (boundInst .ok)⟩
    (boundInst .ok) rfl rfl).2.1 rfl rfl

/-- C6: a registered slot whose resolution yields activate = true and
whose init hook reports failure or throws (every hook behavior other than
success) ends, after the async handler's initPlugin of that slot,
deactivated and evicted: the rejected base instance has isActive false,
the slot holds no instance (isPluginInstantiated and isPluginActive are
false), and the persisted enabled flag at the plugin namespace is false.
The promise-based base is the spec-modelled `initPluginBaseAsync`. -/
theorem c6_failed_init_deactivates_and_evicts (h : Handler) (w w2 : World)
    (name : String) (slot : Slot) (p : PluginInstance) (c : PluginConfig)
    (pc : Option ParentConfig)
    (hl : h.lookup name = some slot) (hi : slot.inst = some p)
    (hc : slot.config = some c) (hdbs : p.statesDb = some ())
    (hres : resolvePhase p w c pc = .ok (w2, true))
    (hhook : p.initHook ≠ .ok) :
    ∃ h2 w3,
      h.initPluginAsync w name pc = .ok (h2, w3)
      ∧ h2.isPluginInstantiated name = false
      ∧ h2.isPluginActive name = false
      ∧ w3.states (p.pluginNamespace ++ ".enabled")
          = .found ⟨.bool false, true, p.pluginNamespace⟩
      ∧ (∀ p3 c3 w4, initPluginBaseAsync p w (some c) pc = .rejected p3 c3 w4 →
          p3.isActive = false) := by
  have hbase : initPluginBaseAsync p w (some c) pc =
      .rejected { p with isActive := false }
        (some { c with enabled := .bool true })
        (w2.setStateVal (p.pluginNamespace ++ ".enabled")
          ⟨.bool false, true, p.pluginNamespace⟩) := by
    cases hk : p.initHook with
    | ok => exact absurd hk hhook
    | fail e =>
        simp [initPluginBaseAsync, hres, hk, PluginInstance.setActive,
          PluginInstance.setState, hdbs]
    | throws e =>
        simp [initPluginBaseAsync, hres, hk, PluginInstance.setActive,
          PluginInstance.setState, hdbs]
  refine ⟨h.setSlot name ⟨some { c with enabled := .bool true }, none⟩,
    w2.setStateVal (p.pluginNamespace ++ ".enabled")
      ⟨.bool false, true, p.pluginNamespace⟩, ?_, ?_, ?_, ?_, ?_⟩
  · simp [Handler.initPluginAsync, hl, hi, hc, hbase]
  · simp [Handler.isPluginInstantiated,
      Handler.lookup_setSlot h name _ (by simp [hl])]
  · simp [Handler.isPluginActive,
      Handler.lookup_setSlot h name _ (by simp [hl])]
  · simp [World.setStateVal]
  · intro p3 c3 w4 hr
    rw [hbase] at hr
    simp only [AsyncOut.rejected.injEq] at hr
    rw [← hr.1]

/-- A one-slot registry whose bound instance's init hook calls back an
error. -/
def hFail : Handler := ⟨[("sentry", ⟨some cfgU, some (boundInst (.fail "err"))⟩)]⟩

/-- Witness for C6 at a concrete failing slot. -/
theorem c6_failed_init_deactivates_and_evicts_witness :
    ∃ h2 w3,
      hFail.initPluginAsync w0 "sentry" none = .ok (h2, w3)
      ∧ h2.isPluginInstantiated "sentry" = false
      ∧ h2.isPluginActive "sentry" = false
      ∧ w3.states ((boundInst (.fail "err")).pluginNamespace ++ ".enabled")
          = .found ⟨.bool false, true, (boundInst (.fail "err")).pluginNamespace⟩
      ∧ (∀ p3 c3 w4,
          initPluginBaseAsync (boundInst (.fail "err")) w0 (some cfgU) none
            = .rejected p3 c3 w4 → p3.isActive = false) :=
  c6_failed_init_deactivates_and_evicts hFail w0
    ((w0.setObj (boundInst (.fail "err")).pluginNamespace folderObj).setObj
      ((boundInst (.fail "err")).pluginNamespace ++ ".enabled") enabledStateObj)
    "sentry" ⟨some cfgU, some (boundInst (.fail "err"))⟩
    (boundInst (.fail "err")) cfgU none rfl rfl rfl rfl rfl (by decide)

/-- C10: a registered plugin whose resolution yields activate = false is
not an error but is still evicted by the callback orchestrator:
_initialize skips the init hook (the conclusion holds for every hook
behavior of the instance, including a throwing one), deactivates through
setActive(false), and calls back (null, false); initPlugins treats the
non-success like an error and destroys and deletes the instance, so after
it the slot is neither instantiated nor active. -/
theorem c10_disabled_plugin_evicted (name : String) (slot : Slot)
    (p : PluginInstance) (c : PluginConfig) (pc : Option ParentConfig)
    (w w2 : World)
    (hi : slot.inst = some p) (hc : slot.config = some c)
    (hdbs : p.statesDb = some ())
    (hres : resolvePhase p w c pc = .ok (w2, false)) :
    ∃ p2 w3,
      initPluginBase p w (some c) pc = .ok (p2, some c, w3, ⟨none, false⟩)
      ∧ p2.isActive = false
      ∧ (Handler.mk [(name, slot)]).initPluginsCb w pc
          = .ok (Handler.mk [(name, ⟨some c, none⟩)], w3)
      ∧ (Handler.mk [(name, ⟨some c, none⟩)]).isPluginInstantiated name = false
      ∧ (Handler.mk [(name, ⟨some c, none⟩)]).isPluginActive name = false := by
  have hb : initPluginBase p w (some c) pc =
      .ok ({ p with isActive := false }, some c,
        w2.setStateVal (p.pluginNamespace ++ ".enabled")
          ⟨.bool false, true, p.pluginNamespace⟩, ⟨none, false⟩) := by
    simp [initPluginBase, hres, initializeStep, PluginInstance.setActive,
      PluginInstance.setState, hdbs]
  refine ⟨{ p with isActive := false },
    w2.setStateVal (p.pluginNamespace ++ ".enabled")
      ⟨.bool false, true, p.pluginNamespace⟩, hb, rfl, ?_, ?_, ?_⟩
  · simp [Handler.initPluginsCb, initPluginsCbGo, hi, hc, hb, Handler.setSlot]
  · simp [Handler.isPluginInstantiated, Handler.lookup, slotsLookup]
  · simp [Handler.isPluginActive, Handler.lookup, slotsLookup]

/-- A configuration whose enabled property is the boolean false. -/
def cfgOff : PluginConfig := ⟨.bool false⟩

/-- Witness for C10 at a concrete disabled slot. -/
theorem c10_disabled_plugin_evicted_witness :
    ∃ p2 w3,
      initPluginBase (boundInst (.throws "boom")) w0 (some cfgOff) none
        = .ok (p2, some cfgOff, w3, ⟨none, false⟩)
      ∧ p2.isActive = false
      ∧ (Handler.mk [("sentry", ⟨some cfgOff, some (boundInst (.throws "boom"))⟩)]).initPluginsCb w0 none
          = .ok (Handler.mk [("sentry", ⟨some cfgOff, none⟩)], w3)
      ∧ (Handler.mk [("sentry", ⟨some cfgOff, none⟩)]).isPluginInstantiated "sentry" = false
      ∧ (Handler.mk [("sentry", ⟨some cfgOff, none⟩)]).isPluginActive "sentry" = false :=
  c10_disabled_plugin_evicted "sentry"
    ⟨some cfgOff, some (boundInst (.throws "boom"))⟩ (boundInst (.throws "boom"))
    cfgOff none w0
    ((w0.setObj (boundInst (.throws "boom")).pluginNamespace folderObj).setObj
      ((boundInst (.throws "boom")).pluginNamespace ++ ".enabled") enabledStateObj)
    rfl rfl rfl rfl

/-- The live bound instance registered second in the C1 registry. -/
def sampleInstB : PluginInstance :=
  ⟨"adapter", "system.adapter.x.0.plugins.b", some (), some (), false, .ok, true⟩

/-- A registry whose first slot has no live instance and whose second
slot holds a live bound instance. -/
def sampleH2 : Handler :=
  ⟨[("a", ⟨some cfgU, none⟩), ("b", ⟨some cfgU, some sampleInstB⟩)]⟩

/-- C1 (refutation): on a registry whose first slot has no live instance
and whose second slot does, the async-variant initPlugins returns upon
the first slot, leaving handler and world untouched, so the later slot b
is never processed; the callback-variant initPlugins of the same registry
processes b fully (it ends active with its enabled flag persisted true),
which is the behavior the claim describes. -/
theorem c1_initPlugins_early_return :
    sampleH2.initPluginsAsync w0 none = .ok (sampleH2, w0)
  ∧ (sampleH2.initPluginsCb w0 none).toOption.map
        (fun hw => (hw.1.isPluginActive "b",
          hw.2.states ("system.adapter.x.0.plugins.b" ++ ".enabled")))
      = some (true, .found ⟨.bool true, true, "system.adapter.x.0.plugins.b"⟩) :=
  ⟨rfl, rfl⟩

end PluginsBase
